import Mathlib

/-!
Shallow embedding of the TIPP (Time Invariant Portfolio Protection)
simulator from the pyinsurance repository.  The repository ships two
Cython implementations of the same strategy:

* `TIPP` (`src/pyinsurance/portfolio/tipp_.pyx`): the discount series is
  vectorised up front from the instance scalar `_compounded_period`
  (one frozen exponent for the whole array), the protection floor is
  initialised to `capital * min_capital_req / discount`, the
  constructor's length validation is commented out, and `run`
  decrements the instance scalar `_compounded_period` in place.

* `TIPPmv` (the memory-view variant of the same class): the constructor
  raises on mismatched input lengths, the floor is initialised to
  `capital * min_capital_req`, a scalar discount factor is recomputed
  incrementally from a loop-local `compounded_period`, and the instance
  scalar `_compounded_period` is never mutated by `run`.

Float arithmetic is idealised as real arithmetic; the float power
`x ** y` becomes `Real.rpow`.  The numpy output arrays are modelled as
total functions `ℕ → ℝ`; the loop only ever reads and writes indices
below the input length.
-/

noncomputable section

/-- The six scalar strategy parameters (`_capital`, `_multiplier`,
`_lock_in`, `_min_risk_req`, `_min_capital_req`, `_freq`). -/
structure Config where
  capital : ℝ
  multiplier : ℝ
  lock_in : ℝ
  min_risk_req : ℝ
  min_capital_req : ℝ
  freq : ℝ

/-- The four state series populated by `run`. -/
structure Arrays where
  portfolio : ℕ → ℝ
  ref_capital : ℕ → ℝ
  margin_trigger : ℕ → ℝ
  floor : ℕ → ℝ

/-- `TIPP._get_risk_allocation_mix`: clamp the multiplier-scaled magnet
below the (previous-period) portfolio value first, then above the
minimum-risk share `min_risk_req * portfolio`. -/
def risk_allocation_mix (cfg : Config) (magnet p : ℝ) : ℝ :=
  max (min (cfg.multiplier * magnet) p) (cfg.min_risk_req * p)

/-- One iteration `i ≥ 1` of the `run` loop; the body is shared verbatim
by both implementations, `D` being the discount factor this iteration
uses for `floor_cap`.  The order of operations mirrors the source:
reference-capital ratchet, floor ratchet, liquidity injection (which
overrides the ratcheted reference capital and retroactively corrects
`portfolio[i-1]` in place), allocation split, portfolio update. -/
def stepCore (cfg : Config) (rr rf : ℕ → ℝ) (D : ℝ) (i : ℕ)
    (s : Arrays) : Arrays :=
  let p0 := s.portfolio (i - 1)
  let rc0 := s.ref_capital (i - 1)
  let f0 := s.floor (i - 1)
  let rcNew := if p0 ≥ (1 + cfg.lock_in) * rc0 then p0 else rc0
  let floor_cap := p0 * D
  let flNew := if floor_cap > f0 then floor_cap else f0
  let doInject := p0 < rc0 * cfg.min_capital_req
  let capital_to_inject := rc0 * cfg.min_capital_req - p0
  let rcFinal := if doInject then rc0 - capital_to_inject else rcNew
  let pPrev := if doInject then p0 + capital_to_inject else p0
  let mtNew := if doInject then capital_to_inject else s.margin_trigger i
  let magnet := pPrev - f0
  let ra := risk_allocation_mix cfg magnet pPrev
  let pNew := ra * (1 + rr i) + (pPrev - ra) * (1 + rf i)
  { portfolio := Function.update (Function.update s.portfolio (i - 1) pPrev) i pNew,
    ref_capital := Function.update s.ref_capital i rcFinal,
    margin_trigger := Function.update s.margin_trigger i mtNew,
    floor := Function.update s.floor i flNew }

/-- `loopA cfg rr rf D a0 k` is the array state after the loop body has
executed for `i = 1, …, k` starting from the initial state `a0`; `D i`
is the discount factor in force during iteration `i`. -/
def loopA (cfg : Config) (rr rf : ℕ → ℝ) (D : ℕ → ℝ)
    (a0 : Arrays) : ℕ → Arrays
  | 0 => a0
  | k + 1 => stepCore cfg rr rf (D (k + 1)) (k + 1) (loopA cfg rr rf D a0 k)

namespace TIPP

/-- `self._discount = (1 + self._rf * self._freq / 252) ** self._compounded_period`:
the whole discount array is computed up front with the single frozen
exponent `cp0`, the value of `_compounded_period` when `run` starts. -/
def discountArr (cfg : Config) (rf : ℕ → ℝ) (cp0 : ℝ) : ℕ → ℝ :=
  fun j => (1 + rf j * cfg.freq / 252) ^ cp0

/-- The pre-loop initialisation of `run` in `tipp_.pyx`: every slot of
`portfolio` and `ref_capital` is `capital`, `margin_trigger` is zero and
`floor` is `capital * min_capital_req / discount` (a *discounted* floor). -/
def initArrays (cfg : Config) (rf : ℕ → ℝ) (cp0 : ℝ) : Arrays where
  portfolio := fun _ => cfg.capital
  ref_capital := fun _ => cfg.capital
  margin_trigger := fun _ => 0
  floor := fun j => cfg.capital * cfg.min_capital_req / discountArr cfg rf cp0 j

/-- The array state after the full loop of `run` (`i = 1, …, n-1`);
iteration `i` reads its discount factor from the precomputed array at
index `i - 1`. -/
def runArrays (cfg : Config) (rr rf : ℕ → ℝ) (cp0 : ℝ) (n : ℕ) : Arrays :=
  loopA cfg rr rf (fun i => discountArr cfg rf cp0 (i - 1))
    (initArrays cfg rf cp0) (n - 1)

/-- `self._compounded_period -= 1 / self._freq`, executed once per loop
iteration: the value of the instance scalar after `k` iterations. -/
def cpAfter (cp0 freq : ℝ) : ℕ → ℝ
  | 0 => cp0
  | k + 1 => cpAfter cp0 freq k - 1 / freq

/-- The instance state of the `TIPP` extension class in `tipp_.pyx`:
configuration scalars, the three stored input series, the five output
arrays (`None` before `run`) and the scalar `_compounded_period`. -/
structure Inst where
  cfg : Config
  rr : List ℝ
  rf : List ℝ
  br : List ℝ
  portfolio : Option (ℕ → ℝ)
  ref_capital : Option (ℕ → ℝ)
  margin_trigger : Option (ℕ → ℝ)
  discount : Option (ℕ → ℝ)
  floor : Option (ℕ → ℝ)
  compounded_period : ℝ

/-- `TIPP.__init__` in `tipp_.pyx`.  The length validation block is
commented out in the source, so construction never raises; the result
type still allows an error so that the (absent) failure path can be
talked about. -/
def mk (capital multiplier : ℝ) (rr rf br : List ℝ)
    (lock_in min_risk_req min_capital_req : ℝ) (freq : ℝ) :
    Except String Inst :=
  .ok { cfg := ⟨capital, multiplier, lock_in, min_risk_req, min_capital_req, freq⟩,
        rr := rr, rf := rf, br := br,
        portfolio := none, ref_capital := none, margin_trigger := none,
        discount := none, floor := none,
        compounded_period := (rr.length : ℝ) / freq }

/-- `TIPP.run` in `tipp_.pyx`: recompute the discount array from the
*current* `_compounded_period`, reallocate all four output arrays, run
the loop, and leave `_compounded_period` decremented by `1/freq` per
iteration. -/
def run (s : Inst) : Inst :=
  let n := s.rr.length
  let rrF := fun j => s.rr.getD j 0
  let rfF := fun j => s.rf.getD j 0
  let a := runArrays s.cfg rrF rfF s.compounded_period n
  { s with portfolio := some a.portfolio,
           ref_capital := some a.ref_capital,
           margin_trigger := some a.margin_trigger,
           discount := some (discountArr s.cfg rfF s.compounded_period),
           floor := some a.floor,
           compounded_period := cpAfter s.compounded_period s.cfg.freq (n - 1) }

/-- The `floor` property accessor (reads the array populated by `run`). -/
def Inst.floorA (s : Inst) : ℕ → ℝ := s.floor.getD (fun _ => 0)

end TIPP

namespace TIPPmv

/-- The pre-loop initialisation of `run` in the memory-view variant:
`portfolio` and `ref_capital` are `capital` everywhere, `margin_trigger`
is zero and every slot of `floor` is `capital * min_capital_req`
(the undiscounted minimum-capital floor). -/
def initArrays (cfg : Config) : Arrays where
  portfolio := fun _ => cfg.capital
  ref_capital := fun _ => cfg.capital
  margin_trigger := fun _ => 0
  floor := fun _ => cfg.capital * cfg.min_capital_req

/-- The loop of the memory-view `run`, with its two loop-local scalars:
`loop cfg rr rf n k = (arrays, compounded_period, discount_factor)`
after `k` iterations.  `compounded_period` starts at `n / freq` and is
decremented by `1/freq` at the end of each iteration, after which
`discount_factor` is recomputed as
`pow(1 + rf[i] * freq / 252, compounded_period)`. -/
def loop (cfg : Config) (rr rf : ℕ → ℝ) (n : ℕ) : ℕ → Arrays × ℝ × ℝ
  | 0 => (initArrays cfg, (n : ℝ) / cfg.freq,
          (1 + rf 0 * cfg.freq / 252) ^ ((n : ℝ) / cfg.freq))
  | k + 1 =>
      let prev := loop cfg rr rf n k
      let a := stepCore cfg rr rf prev.2.2 (k + 1) prev.1
      let cp := prev.2.1 - 1 / cfg.freq
      (a, cp, (1 + rf (k + 1) * cfg.freq / 252) ^ cp)

/-- The array state after the full loop of the memory-view `run`. -/
def runArrays (cfg : Config) (rr rf : ℕ → ℝ) (n : ℕ) : Arrays :=
  (loop cfg rr rf n (n - 1)).1

/-- Closed form of the discount factor in force during iteration `i`
(`i ≥ 1`): the exponent is the current `compounded_period`,
`(n - (i-1)) / freq`. -/
def mvD (cfg : Config) (rf : ℕ → ℝ) (n : ℕ) : ℕ → ℝ :=
  fun i => (1 + rf (i - 1) * cfg.freq / 252) ^
    ((n : ℝ) / cfg.freq - ((i - 1 : ℕ) : ℝ) / cfg.freq)

/-- The instance state of the memory-view `TIPP` class (no stored
discount array; the discount factor only ever lives in a loop local). -/
structure Inst where
  cfg : Config
  rr : List ℝ
  rf : List ℝ
  br : List ℝ
  portfolio : Option (ℕ → ℝ)
  ref_capital : Option (ℕ → ℝ)
  margin_trigger : Option (ℕ → ℝ)
  floor : Option (ℕ → ℝ)
  compounded_period : ℝ

/-- `TIPP.__init__` of the memory-view variant: raise
`ValueError("All rate parameters must have the same length")` when the
three series lengths disagree, before any field is assigned. -/
def mk (capital multiplier : ℝ) (rr rf br : List ℝ)
    (lock_in min_risk_req min_capital_req : ℝ) (freq : ℝ) :
    Except String Inst :=
  if rr.length ≠ rf.length ∨ rr.length ≠ br.length then
    .error "All rate parameters must have the same length"
  else
    .ok { cfg := ⟨capital, multiplier, lock_in, min_risk_req, min_capital_req, freq⟩,
          rr := rr, rf := rf, br := br,
          portfolio := none, ref_capital := none, margin_trigger := none,
          floor := none,
          compounded_period := (rr.length : ℝ) / freq }

/-- `TIPP.run` of the memory-view variant: all four output views are
freshly allocated, `compounded_period` is recomputed locally as
`n / freq`, and the instance scalar `_compounded_period` is left
untouched. -/
def run (s : Inst) : Inst :=
  let n := s.rr.length
  let rrF := fun j => s.rr.getD j 0
  let rfF := fun j => s.rf.getD j 0
  let a := runArrays s.cfg rrF rfF n
  { s with portfolio := some a.portfolio,
           ref_capital := some a.ref_capital,
           margin_trigger := some a.margin_trigger,
           floor := some a.floor }

/-- The `floor` property accessor. -/
def Inst.floorA (s : Inst) : ℕ → ℝ := s.floor.getD (fun _ => 0)

end TIPPmv

/-! ### Concrete instances used in the concrete scenarios below -/

/-- A freshly constructed `tipp_.pyx` instance with `n = 2`, `freq = 2`,
`rf = [126, 126]`, `capital = 100`, `min_capital_req = 1`
(`compounded_period = 2/2 = 1`, exactly as `__init__` computes it). -/
def instC1 : TIPP.Inst :=
  { cfg := ⟨100, 1, 0, 0, 1, 2⟩,
    rr := [0, 0], rf := [126, 126], br := [0, 0],
    portfolio := none, ref_capital := none, margin_trigger := none,
    discount := none, floor := none,
    compounded_period := ((([0, 0] : List ℝ)).length : ℝ) / 2 }

/-- A freshly constructed `tipp_.pyx` instance with `n = 2`, `freq = 1`,
`rf = [252, 252]` (`compounded_period = 2/1 = 2`). -/
def instC3 : TIPP.Inst :=
  { cfg := ⟨100, 1, 0, 0, 1, 1⟩,
    rr := [0, 0], rf := [252, 252], br := [0, 0],
    portfolio := none, ref_capital := none, margin_trigger := none,
    discount := none, floor := none,
    compounded_period := ((([0, 0] : List ℝ)).length : ℝ) / 1 }

/-- A freshly constructed `tipp_.pyx` instance with `n = 2`, `freq = 1`
and zero returns. -/
def instC4 : TIPP.Inst :=
  { cfg := ⟨100, 1, 0, 0, 1, 1⟩,
    rr := [0, 0], rf := [0, 0], br := [0, 0],
    portfolio := none, ref_capital := none, margin_trigger := none,
    discount := none, floor := none,
    compounded_period := ((([0, 0] : List ℝ)).length : ℝ) / 1 }

/-- A freshly constructed memory-view instance with `n = 3`, `freq = 1`
(`compounded_period = 3/1`). -/
def instC4mv : TIPPmv.Inst :=
  { cfg := ⟨100, 1, 0, 0, 1, 1⟩,
    rr := [0, 0, 0], rf := [0, 0, 0], br := [0, 0, 0],
    portfolio := none, ref_capital := none, margin_trigger := none,
    floor := none,
    compounded_period := ((([0, 0, 0] : List ℝ)).length : ℝ) / 1 }

/-- A `tipp_.pyx` instance with benchmark series `[1]`. -/
def sampleTIPP : TIPP.Inst :=
  { cfg := ⟨100, 1, 0, 0, 1, 252⟩,
    rr := [0], rf := [0], br := [1],
    portfolio := none, ref_capital := none, margin_trigger := none,
    discount := none, floor := none,
    compounded_period := ((([0] : List ℝ)).length : ℝ) / 252 }

/-- A memory-view instance constructed with benchmark series `[1]`. -/
def sampleMv1 : TIPPmv.Inst :=
  { cfg := ⟨100, 1, 0, 0, 1, 252⟩,
    rr := [0], rf := [0], br := [1],
    portfolio := none, ref_capital := none, margin_trigger := none,
    floor := none,
    compounded_period := ((([0] : List ℝ)).length : ℝ) / 252 }

/-- A memory-view instance constructed with benchmark series `[2]`. -/
def sampleMv2 : TIPPmv.Inst :=
  { cfg := ⟨100, 1, 0, 0, 1, 252⟩,
    rr := [0], rf := [0], br := [2],
    portfolio := none, ref_capital := none, margin_trigger := none,
    floor := none,
    compounded_period := ((([0] : List ℝ)).length : ℝ) / 252 }

/-- Configuration of the forced-loss scenario: `capital = 100`,
`multiplier = 2`, `lock_in = 0`, `min_risk_req = 1/5`,
`min_capital_req = 1/2`, `freq = 1`. -/
def cfgC7 : Config := ⟨100, 2, 0, 1/5, 1/2, 1⟩

/-- Risky returns of the forced-loss scenario: a `-200%` shock at
period 1 followed by a `-600%` shock at period 2. -/
def rrC7 : ℕ → ℝ := fun j => if j = 1 then -2 else if j = 2 then -6 else 0

/-- Risk-free returns of the forced-loss scenario (all zero). -/
def rfC7 : ℕ → ℝ := fun _ => 0

/-- Whether a construction attempt succeeded (`true`) or raised
(`false`). -/
def constructionOk {α : Type} : Except String α → Bool
  | .ok _ => true
  | .error _ => false

end

/-! ### Frame lemmas for one loop iteration

Iteration `i` writes `ref_capital`, `floor` and `margin_trigger` only at
index `i`, and `portfolio` only at indices `i` and `i - 1`. -/

lemma stepCore_ref_capital_ne (cfg : Config) (rr rf : ℕ → ℝ) (D : ℝ)
    (i : ℕ) (s : Arrays) {j : ℕ} (hj : j ≠ i) :
    (stepCore cfg rr rf D i s).ref_capital j = s.ref_capital j := by
  simp only [stepCore]
  exact Function.update_noteq hj _ _

lemma stepCore_floor_ne (cfg : Config) (rr rf : ℕ → ℝ) (D : ℝ)
    (i : ℕ) (s : Arrays) {j : ℕ} (hj : j ≠ i) :
    (stepCore cfg rr rf D i s).floor j = s.floor j := by
  simp only [stepCore]
  exact Function.update_noteq hj _ _

lemma stepCore_margin_ne (cfg : Config) (rr rf : ℕ → ℝ) (D : ℝ)
    (i : ℕ) (s : Arrays) {j : ℕ} (hj : j ≠ i) :
    (stepCore cfg rr rf D i s).margin_trigger j = s.margin_trigger j := by
  simp only [stepCore]
  exact Function.update_noteq hj _ _

lemma stepCore_portfolio_ne (cfg : Config) (rr rf : ℕ → ℝ) (D : ℝ)
    (i : ℕ) (s : Arrays) {j : ℕ} (hj : j ≠ i) (hj' : j ≠ i - 1) :
    (stepCore cfg rr rf D i s).portfolio j = s.portfolio j := by
  simp only [stepCore]
  rw [Function.update_noteq hj, Function.update_noteq hj']

/-! ### Values written by one loop iteration at its own indices -/

lemma stepCore_margin_self (cfg : Config) (rr rf : ℕ → ℝ) (D : ℝ)
    (i : ℕ) (s : Arrays) :
    (stepCore cfg rr rf D i s).margin_trigger i =
      if s.portfolio (i - 1) < s.ref_capital (i - 1) * cfg.min_capital_req
      then s.ref_capital (i - 1) * cfg.min_capital_req - s.portfolio (i - 1)
      else s.margin_trigger i := by
  simp only [stepCore]
  rw [Function.update_same]

lemma stepCore_ref_capital_self (cfg : Config) (rr rf : ℕ → ℝ) (D : ℝ)
    (i : ℕ) (s : Arrays) :
    (stepCore cfg rr rf D i s).ref_capital i =
      if s.portfolio (i - 1) < s.ref_capital (i - 1) * cfg.min_capital_req
      then s.ref_capital (i - 1) -
        (s.ref_capital (i - 1) * cfg.min_capital_req - s.portfolio (i - 1))
      else if s.portfolio (i - 1) ≥ (1 + cfg.lock_in) * s.ref_capital (i - 1)
        then s.portfolio (i - 1) else s.ref_capital (i - 1) := by
  simp only [stepCore]
  rw [Function.update_same]

lemma stepCore_floor_self (cfg : Config) (rr rf : ℕ → ℝ) (D : ℝ)
    (i : ℕ) (s : Arrays) :
    (stepCore cfg rr rf D i s).floor i =
      if s.portfolio (i - 1) * D > s.floor (i - 1)
      then s.portfolio (i - 1) * D else s.floor (i - 1) := by
  simp only [stepCore]
  rw [Function.update_same]

lemma stepCore_portfolio_prev (cfg : Config) (rr rf : ℕ → ℝ) (D : ℝ)
    (i : ℕ) (s : Arrays) (hi : 1 ≤ i) :
    (stepCore cfg rr rf D i s).portfolio (i - 1) =
      if s.portfolio (i - 1) < s.ref_capital (i - 1) * cfg.min_capital_req
      then s.ref_capital (i - 1) * cfg.min_capital_req
      else s.portfolio (i - 1) := by
  simp only [stepCore]
  rw [Function.update_noteq (by omega), Function.update_same]
  split_ifs
  · ring
  · rfl

lemma stepCore_portfolio_self (cfg : Config) (rr rf : ℕ → ℝ) (D : ℝ)
    (i : ℕ) (s : Arrays) (hi : 1 ≤ i) :
    (stepCore cfg rr rf D i s).portfolio i =
      risk_allocation_mix cfg
          ((stepCore cfg rr rf D i s).portfolio (i - 1) - s.floor (i - 1))
          ((stepCore cfg rr rf D i s).portfolio (i - 1)) * (1 + rr i) +
        ((stepCore cfg rr rf D i s).portfolio (i - 1) -
          risk_allocation_mix cfg
            ((stepCore cfg rr rf D i s).portfolio (i - 1) - s.floor (i - 1))
            ((stepCore cfg rr rf D i s).portfolio (i - 1))) * (1 + rf i) := by
  conv_lhs => simp only [stepCore]
  rw [Function.update_same]
  rw [stepCore_portfolio_prev cfg rr rf D i s hi]
  split_ifs with h
  · ring_nf
  · rfl

/-! ### Stability of already-written indices across later iterations -/

lemma loopA_ref_capital_stable (cfg : Config) (rr rf : ℕ → ℝ) (D : ℕ → ℝ)
    (a0 : Arrays) {j k k' : ℕ} (hjk : j ≤ k) (hkk : k ≤ k') :
    (loopA cfg rr rf D a0 k').ref_capital j =
      (loopA cfg rr rf D a0 k).ref_capital j := by
  induction k' with
  | zero =>
      have : k = 0 := by omega
      subst this; rfl
  | succ m ih =>
      rcases Nat.lt_or_ge k (m + 1) with h | h
      · simp only [loopA]
        rw [stepCore_ref_capital_ne cfg rr rf _ _ _ (by omega), ih (by omega)]
      · have : k = m + 1 := by omega
        subst this; rfl

lemma loopA_floor_stable (cfg : Config) (rr rf : ℕ → ℝ) (D : ℕ → ℝ)
    (a0 : Arrays) {j k k' : ℕ} (hjk : j ≤ k) (hkk : k ≤ k') :
    (loopA cfg rr rf D a0 k').floor j = (loopA cfg rr rf D a0 k).floor j := by
  induction k' with
  | zero =>
      have : k = 0 := by omega
      subst this; rfl
  | succ m ih =>
      rcases Nat.lt_or_ge k (m + 1) with h | h
      · simp only [loopA]
        rw [stepCore_floor_ne cfg rr rf _ _ _ (by omega), ih (by omega)]
      · have : k = m + 1 := by omega
        subst this; rfl

lemma loopA_margin_stable (cfg : Config) (rr rf : ℕ → ℝ) (D : ℕ → ℝ)
    (a0 : Arrays) {j k k' : ℕ} (hjk : j ≤ k) (hkk : k ≤ k') :
    (loopA cfg rr rf D a0 k').margin_trigger j =
      (loopA cfg rr rf D a0 k).margin_trigger j := by
  induction k' with
  | zero =>
      have : k = 0 := by omega
      subst this; rfl
  | succ m ih =>
      rcases Nat.lt_or_ge k (m + 1) with h | h
      · simp only [loopA]
        rw [stepCore_margin_ne cfg rr rf _ _ _ (by omega), ih (by omega)]
      · have : k = m + 1 := by omega
        subst this; rfl

lemma loopA_portfolio_stable (cfg : Config) (rr rf : ℕ → ℝ) (D : ℕ → ℝ)
    (a0 : Arrays) {j k k' : ℕ} (hjk : j + 1 ≤ k) (hkk : k ≤ k') :
    (loopA cfg rr rf D a0 k').portfolio j =
      (loopA cfg rr rf D a0 k).portfolio j := by
  induction k' with
  | zero =>
      have : k = 0 := by omega
      subst this; rfl
  | succ m ih =>
      rcases Nat.lt_or_ge k (m + 1) with h | h
      · simp only [loopA]
        rw [stepCore_portfolio_ne cfg rr rf _ _ _ (by omega) (by omega),
          ih (by omega)]
      · have : k = m + 1 := by omega
        subst this; rfl

/-! ### Indices not yet reached, and index 0 -/

lemma loopA_ref_capital_untouched (cfg : Config) (rr rf : ℕ → ℝ)
    (D : ℕ → ℝ) (a0 : Arrays) {k j : ℕ} (h : k < j) :
    (loopA cfg rr rf D a0 k).ref_capital j = a0.ref_capital j := by
  induction k with
  | zero => rfl
  | succ m ih =>
      simp only [loopA]
      rw [stepCore_ref_capital_ne cfg rr rf _ _ _ (by omega), ih (by omega)]

lemma loopA_floor_untouched (cfg : Config) (rr rf : ℕ → ℝ)
    (D : ℕ → ℝ) (a0 : Arrays) {k j : ℕ} (h : k < j) :
    (loopA cfg rr rf D a0 k).floor j = a0.floor j := by
  induction k with
  | zero => rfl
  | succ m ih =>
      simp only [loopA]
      rw [stepCore_floor_ne cfg rr rf _ _ _ (by omega), ih (by omega)]

lemma loopA_margin_untouched (cfg : Config) (rr rf : ℕ → ℝ)
    (D : ℕ → ℝ) (a0 : Arrays) {k j : ℕ} (h : k < j) :
    (loopA cfg rr rf D a0 k).margin_trigger j = a0.margin_trigger j := by
  induction k with
  | zero => rfl
  | succ m ih =>
      simp only [loopA]
      rw [stepCore_margin_ne cfg rr rf _ _ _ (by omega), ih (by omega)]

lemma loopA_ref_capital_zero (cfg : Config) (rr rf : ℕ → ℝ)
    (D : ℕ → ℝ) (a0 : Arrays) (k : ℕ) :
    (loopA cfg rr rf D a0 k).ref_capital 0 = a0.ref_capital 0 := by
  induction k with
  | zero => rfl
  | succ m ih =>
      simp only [loopA]
      rw [stepCore_ref_capital_ne cfg rr rf _ _ _ (by omega), ih]

lemma loopA_floor_zero (cfg : Config) (rr rf : ℕ → ℝ)
    (D : ℕ → ℝ) (a0 : Arrays) (k : ℕ) :
    (loopA cfg rr rf D a0 k).floor 0 = a0.floor 0 := by
  induction k with
  | zero => rfl
  | succ m ih =>
      simp only [loopA]
      rw [stepCore_floor_ne cfg rr rf _ _ _ (by omega), ih]

lemma loopA_margin_zero (cfg : Config) (rr rf : ℕ → ℝ)
    (D : ℕ → ℝ) (a0 : Arrays) (k : ℕ) :
    (loopA cfg rr rf D a0 k).margin_trigger 0 = a0.margin_trigger 0 := by
  induction k with
  | zero => rfl
  | succ m ih =>
      simp only [loopA]
      rw [stepCore_margin_ne cfg rr rf _ _ _ (by omega), ih]

lemma loopA_portfolio_zero (cfg : Config) (rr rf : ℕ → ℝ)
    (D : ℕ → ℝ) (a0 : Arrays)
    (h : ¬ a0.portfolio 0 < a0.ref_capital 0 * cfg.min_capital_req) (k : ℕ) :
    (loopA cfg rr rf D a0 k).portfolio 0 = a0.portfolio 0 := by
  induction k with
  | zero => rfl
  | succ m ih =>
      simp only [loopA]
      rcases Nat.eq_zero_or_pos m with hm | hm
      · subst hm
        have h1 : (stepCore cfg rr rf (D 1) 1 (loopA cfg rr rf D a0 0)).portfolio (1 - 1) =
            (loopA cfg rr rf D a0 0).portfolio 0 := by
          rw [stepCore_portfolio_prev cfg rr rf _ _ _ (by omega)]
          simp only [loopA]
          rw [if_neg h]
        simpa using h1
      · rw [stepCore_portfolio_ne cfg rr rf _ _ _ (by omega) (by omega), ih]

/-! ### Floor monotonicity -/

lemma stepCore_floor_ge (cfg : Config) (rr rf : ℕ → ℝ) (D : ℝ)
    (i : ℕ) (s : Arrays) :
    s.floor (i - 1) ≤ (stepCore cfg rr rf D i s).floor i := by
  rw [stepCore_floor_self]
  split_ifs with h
  · exact le_of_lt h
  · exact le_refl _

lemma loopA_floor_mono (cfg : Config) (rr rf : ℕ → ℝ) (D : ℕ → ℝ)
    (a0 : Arrays) {i k : ℕ} (h1 : 1 ≤ i) (h2 : i ≤ k) :
    (loopA cfg rr rf D a0 k).floor (i - 1) ≤ (loopA cfg rr rf D a0 k).floor i := by
  obtain ⟨m, rfl⟩ : ∃ m, i = m + 1 := ⟨i - 1, by omega⟩
  have hstep : (loopA cfg rr rf D a0 (m + 1)).floor (m + 1 - 1) ≤
      (loopA cfg rr rf D a0 (m + 1)).floor (m + 1) := by
    simp only [loopA]
    rw [stepCore_floor_ne cfg rr rf _ _ _ (by omega)]
    exact stepCore_floor_ge cfg rr rf _ _ _
  calc (loopA cfg rr rf D a0 k).floor (m + 1 - 1)
      = (loopA cfg rr rf D a0 (m + 1)).floor (m + 1 - 1) :=
        loopA_floor_stable cfg rr rf D a0 (by omega) h2
    _ ≤ (loopA cfg rr rf D a0 (m + 1)).floor (m + 1) := hstep
    _ = (loopA cfg rr rf D a0 k).floor (m + 1) :=
        (loopA_floor_stable cfg rr rf D a0 (by omega) h2).symm

/-! ### The liquidity-injection postconditions -/

lemma loopA_margin_final (cfg : Config) (rr rf : ℕ → ℝ) (D : ℕ → ℝ)
    (a0 : Arrays) (h0 : ∀ j, a0.margin_trigger j = 0)
    {i k : ℕ} (h1 : 1 ≤ i) (h2 : i ≤ k) :
    (loopA cfg rr rf D a0 k).margin_trigger i =
      if (loopA cfg rr rf D a0 (i - 1)).portfolio (i - 1) <
          (loopA cfg rr rf D a0 (i - 1)).ref_capital (i - 1) * cfg.min_capital_req
      then (loopA cfg rr rf D a0 (i - 1)).ref_capital (i - 1) * cfg.min_capital_req -
        (loopA cfg rr rf D a0 (i - 1)).portfolio (i - 1)
      else 0 := by
  obtain ⟨m, rfl⟩ : ∃ m, i = m + 1 := ⟨i - 1, by omega⟩
  have hstable : (loopA cfg rr rf D a0 k).margin_trigger (m + 1) =
      (loopA cfg rr rf D a0 (m + 1)).margin_trigger (m + 1) :=
    loopA_margin_stable cfg rr rf D a0 (le_refl _) h2
  rw [hstable]
  show (stepCore cfg rr rf (D (m + 1)) (m + 1) (loopA cfg rr rf D a0 m)).margin_trigger (m + 1) = _
  rw [stepCore_margin_self]
  have hmt : (loopA cfg rr rf D a0 m).margin_trigger (m + 1) = 0 := by
    rw [loopA_margin_untouched cfg rr rf D a0 (by omega), h0]
  simp only [Nat.add_sub_cancel]
  rw [hmt]

lemma loopA_portfolio_prev_final (cfg : Config) (rr rf : ℕ → ℝ) (D : ℕ → ℝ)
    (a0 : Arrays) {i k : ℕ} (h1 : 1 ≤ i) (h2 : i ≤ k) :
    (loopA cfg rr rf D a0 k).portfolio (i - 1) =
      if (loopA cfg rr rf D a0 (i - 1)).portfolio (i - 1) <
          (loopA cfg rr rf D a0 (i - 1)).ref_capital (i - 1) * cfg.min_capital_req
      then (loopA cfg rr rf D a0 (i - 1)).ref_capital (i - 1) * cfg.min_capital_req
      else (loopA cfg rr rf D a0 (i - 1)).portfolio (i - 1) := by
  obtain ⟨m, rfl⟩ : ∃ m, i = m + 1 := ⟨i - 1, by omega⟩
  have hstable : (loopA cfg rr rf D a0 k).portfolio (m + 1 - 1) =
      (loopA cfg rr rf D a0 (m + 1)).portfolio (m + 1 - 1) :=
    loopA_portfolio_stable cfg rr rf D a0 (by omega) h2
  rw [hstable]
  show (stepCore cfg rr rf (D (m + 1)) (m + 1) (loopA cfg rr rf D a0 m)).portfolio (m + 1 - 1) = _
  rw [stepCore_portfolio_prev cfg rr rf _ _ _ (by omega)]
  simp only [Nat.add_sub_cancel]

lemma loopA_ref_capital_prev_final (cfg : Config) (rr rf : ℕ → ℝ) (D : ℕ → ℝ)
    (a0 : Arrays) {i k : ℕ} (h1 : 1 ≤ i) (h2 : i ≤ k) :
    (loopA cfg rr rf D a0 k).ref_capital (i - 1) =
      (loopA cfg rr rf D a0 (i - 1)).ref_capital (i - 1) :=
  loopA_ref_capital_stable cfg rr rf D a0 (le_refl _) (by omega)

lemma loopA_ref_capital_final (cfg : Config) (rr rf : ℕ → ℝ) (D : ℕ → ℝ)
    (a0 : Arrays) {i k : ℕ} (h1 : 1 ≤ i) (h2 : i ≤ k) :
    (loopA cfg rr rf D a0 k).ref_capital i =
      if (loopA cfg rr rf D a0 (i - 1)).portfolio (i - 1) <
          (loopA cfg rr rf D a0 (i - 1)).ref_capital (i - 1) * cfg.min_capital_req
      then (loopA cfg rr rf D a0 (i - 1)).ref_capital (i - 1) -
        ((loopA cfg rr rf D a0 (i - 1)).ref_capital (i - 1) * cfg.min_capital_req -
          (loopA cfg rr rf D a0 (i - 1)).portfolio (i - 1))
      else if (loopA cfg rr rf D a0 (i - 1)).portfolio (i - 1) ≥
          (1 + cfg.lock_in) * (loopA cfg rr rf D a0 (i - 1)).ref_capital (i - 1)
        then (loopA cfg rr rf D a0 (i - 1)).portfolio (i - 1)
        else (loopA cfg rr rf D a0 (i - 1)).ref_capital (i - 1) := by
  obtain ⟨m, rfl⟩ : ∃ m, i = m + 1 := ⟨i - 1, by omega⟩
  have hstable : (loopA cfg rr rf D a0 k).ref_capital (m + 1) =
      (loopA cfg rr rf D a0 (m + 1)).ref_capital (m + 1) :=
    loopA_ref_capital_stable cfg rr rf D a0 (le_refl _) h2
  rw [hstable]
  show (stepCore cfg rr rf (D (m + 1)) (m + 1) (loopA cfg rr rf D a0 m)).ref_capital (m + 1) = _
  rw [stepCore_ref_capital_self]
  simp only [Nat.add_sub_cancel]

/-- Master lemma for the margin-call postconditions: whenever
`margin_trigger[i] > 0` in the final state, the corrected
`portfolio[i-1]` sits exactly on the capital-requirement boundary and
`ref_capital[i]` has been reduced by the injected amount; and
`margin_trigger[i] > 0` holds exactly when the pre-injection
`portfolio[i-1]` was below `ref_capital[i-1] * min_capital_req`. -/
lemma loopA_injection_master (cfg : Config) (rr rf : ℕ → ℝ) (D : ℕ → ℝ)
    (a0 : Arrays) (h0 : ∀ j, a0.margin_trigger j = 0)
    {i k : ℕ} (h1 : 1 ≤ i) (h2 : i ≤ k) :
    (0 < (loopA cfg rr rf D a0 k).margin_trigger i →
      (loopA cfg rr rf D a0 k).portfolio (i - 1) =
        (loopA cfg rr rf D a0 k).ref_capital (i - 1) * cfg.min_capital_req ∧
      (loopA cfg rr rf D a0 k).ref_capital i =
        (loopA cfg rr rf D a0 k).ref_capital (i - 1) -
          (loopA cfg rr rf D a0 k).margin_trigger i) ∧
    (0 < (loopA cfg rr rf D a0 k).margin_trigger i ↔
      (loopA cfg rr rf D a0 (i - 1)).portfolio (i - 1) <
        (loopA cfg rr rf D a0 (i - 1)).ref_capital (i - 1) * cfg.min_capital_req) := by
  have hmt := loopA_margin_final cfg rr rf D a0 h0 h1 h2
  have hpf := loopA_portfolio_prev_final cfg rr rf D a0 h1 h2
  have hrcp := loopA_ref_capital_prev_final cfg rr rf D a0 h1 h2
  have hrci := loopA_ref_capital_final cfg rr rf D a0 h1 h2
  constructor
  · intro hpos
    rw [hmt] at hpos
    split_ifs at hpos with hfire
    · refine ⟨?_, ?_⟩
      · rw [hpf, if_pos hfire, hrcp]
      · rw [hrci, if_pos hfire, hmt, if_pos hfire, hrcp]
    · exact absurd hpos (lt_irrefl 0)
  · rw [hmt]
    constructor
    · intro hpos
      by_contra hfire
      rw [if_neg hfire] at hpos
      exact lt_irrefl 0 hpos
    · intro hfire
      rw [if_pos hfire]
      exact sub_pos.mpr hfire

/-! ### Closed forms for the per-variant bookkeeping scalars -/

lemma TIPP.cpAfter_eq (cp0 freq : ℝ) (k : ℕ) :
    TIPP.cpAfter cp0 freq k = cp0 - (k : ℝ) / freq := by
  induction k with
  | zero => simp [TIPP.cpAfter]
  | succ m ih =>
      rw [TIPP.cpAfter, ih]
      push_cast
      rw [add_div]
      ring

lemma TIPPmv.loop_cp (cfg : Config) (rr rf : ℕ → ℝ) (n k : ℕ) :
    (TIPPmv.loop cfg rr rf n k).2.1 = (n : ℝ) / cfg.freq - (k : ℝ) / cfg.freq := by
  induction k with
  | zero => simp [TIPPmv.loop]
  | succ m ih =>
      rw [TIPPmv.loop]
      simp only
      rw [ih]
      push_cast
      rw [add_div]
      ring

lemma TIPPmv.loop_df (cfg : Config) (rr rf : ℕ → ℝ) (n k : ℕ) :
    (TIPPmv.loop cfg rr rf n k).2.2 = TIPPmv.mvD cfg rf n (k + 1) := by
  cases k with
  | zero => simp [TIPPmv.loop, TIPPmv.mvD]
  | succ m =>
      rw [TIPPmv.loop]
      simp only [TIPPmv.mvD, Nat.add_sub_cancel]
      rw [TIPPmv.loop_cp]
      congr 1
      push_cast
      rw [add_div]
      ring

lemma TIPPmv.loop_fst (cfg : Config) (rr rf : ℕ → ℝ) (n k : ℕ) :
    (TIPPmv.loop cfg rr rf n k).1 =
      loopA cfg rr rf (TIPPmv.mvD cfg rf n) (TIPPmv.initArrays cfg) k := by
  induction k with
  | zero => rfl
  | succ m ih =>
      rw [TIPPmv.loop, loopA]
      simp only
      rw [TIPPmv.loop_df, ih]

/-! ### Projections of `run` -/

lemma TIPP.run_floor (s : TIPP.Inst) :
    (TIPP.run s).floor = some ((TIPP.runArrays s.cfg (fun j => s.rr.getD j 0)
      (fun j => s.rf.getD j 0) s.compounded_period s.rr.length).floor) := rfl

lemma TIPP.run_cp (s : TIPP.Inst) :
    (TIPP.run s).compounded_period =
      TIPP.cpAfter s.compounded_period s.cfg.freq (s.rr.length - 1) := rfl

lemma TIPP.run_floorA_zero (s : TIPP.Inst) :
    (TIPP.run s).floorA 0 = s.cfg.capital * s.cfg.min_capital_req /
      TIPP.discountArr s.cfg (fun j => s.rf.getD j 0) s.compounded_period 0 := by
  show ((TIPP.run s).floor.getD (fun _ => 0)) 0 = _
  rw [TIPP.run_floor]
  show (TIPP.runArrays s.cfg (fun j => s.rr.getD j 0) (fun j => s.rf.getD j 0)
      s.compounded_period s.rr.length).floor 0 = _
  rw [TIPP.runArrays, loopA_floor_zero]
  rfl

/-- C1 (amended): after `run` the floor at index 0 keeps its pre-loop
initialisation value; in the memory-view variant every slot of the
floor array is initialised to `capital * min_capital_req`, so
`floor[0] = capital * min_capital_req` (the undiscounted
minimum-capital floor), whereas `tipp_.pyx` initialises the floor array
to `capital * min_capital_req / discount`, so its index 0 carries the
*discounted* minimum-capital floor
`capital * min_capital_req / (1 + rf[0]*freq/252) ^ compounded_period`. -/
theorem floor_slot_zero_after_run (cfg : Config) (rr rf : ℕ → ℝ)
    (cp0 : ℝ) (n : ℕ) (hn : 1 ≤ n) :
    (TIPPmv.runArrays cfg rr rf n).floor 0 = cfg.capital * cfg.min_capital_req ∧
    (∀ j, (TIPPmv.initArrays cfg).floor j = cfg.capital * cfg.min_capital_req) ∧
    (TIPP.runArrays cfg rr rf cp0 n).floor 0 =
      cfg.capital * cfg.min_capital_req / TIPP.discountArr cfg rf cp0 0 := by
  refine ⟨?_, fun j => rfl, ?_⟩
  · rw [TIPPmv.runArrays, TIPPmv.loop_fst, loopA_floor_zero]
    rfl
  · rw [TIPP.runArrays, loopA_floor_zero]
    rfl

/-- Witness for C1's amended theorem at `n = 2` and a concrete
configuration. -/
theorem floor_slot_zero_after_run_witness :
    (1 ≤ 2) ∧
    ((TIPPmv.runArrays ⟨100, 1, 0, 0, 1, 1⟩ (fun _ => 0) (fun _ => 0) 2).floor 0 =
        (100 : ℝ) * 1 ∧
     (∀ j, (TIPPmv.initArrays ⟨100, 1, 0, 0, 1, 1⟩).floor j = (100 : ℝ) * 1) ∧
     (TIPP.runArrays ⟨100, 1, 0, 0, 1, 1⟩ (fun _ => 0) (fun _ => 0) 2 2).floor 0 =
       (100 : ℝ) * 1 / TIPP.discountArr ⟨100, 1, 0, 0, 1, 1⟩ (fun _ => 0) 2 0) :=
  ⟨by norm_num,
   floor_slot_zero_after_run ⟨100, 1, 0, 0, 1, 1⟩ (fun _ => 0) (fun _ => 0) 2 2
     (by norm_num)⟩

/-- C1 counterexample: on `tipp_.pyx`, a freshly constructed instance
with `rf[0] = 126`, `freq = 2`, `n = 2`, `capital = 100`,
`min_capital_req = 1` has `floor[0] = 50` after `run`, not
`capital * min_capital_req = 100`: the pre-loop initialisation divides
the minimum-capital floor by the discount array. -/
theorem floor_slot_zero_discounted_cex :
    TIPP.mk 100 1 [0, 0] [126, 126] [0, 0] 0 0 1 2 = .ok instC1 ∧
    (TIPP.run instC1).floorA 0 = 50 ∧
    ((50 : ℝ) ≠ instC1.cfg.capital * instC1.cfg.min_capital_req) := by
  refine ⟨rfl, ?_, by norm_num [instC1]⟩
  rw [TIPP.run_floorA_zero]
  have hcp : instC1.compounded_period = 1 := by norm_num [instC1]
  have hd : TIPP.discountArr instC1.cfg (fun j => instC1.rf.getD j 0)
      instC1.compounded_period 0 = 2 := by
    simp only [TIPP.discountArr]
    rw [hcp, Real.rpow_one]
    norm_num [instC1]
  rw [hd]
  norm_num [instC1]

/-- C2 (amended): the memory-view constructor raises exactly when the
three input series lengths disagree (and on failure no instance is
produced); the `tipp_.pyx` constructor has the length validation
commented out and never raises, succeeding even on mismatched
lengths. -/
theorem construction_validation_by_variant (c m li mrr mcr fr : ℝ)
    (rr rf br : List ℝ) :
    (constructionOk (TIPPmv.mk c m rr rf br li mrr mcr fr) = false ↔
      (rr.length ≠ rf.length ∨ rr.length ≠ br.length)) ∧
    constructionOk (TIPP.mk c m rr rf br li mrr mcr fr) = true := by
  refine ⟨?_, rfl⟩
  rw [TIPPmv.mk]
  split_ifs with h
  · exact iff_of_true rfl h
  · exact iff_of_false (by simp [constructionOk]) h

/-- C2 counterexample: `tipp_.pyx` construction succeeds although
`len(rr) = 5 ≠ 4 = len(rf)`: the validation block is commented out in
the source, so no error is raised. -/
theorem construction_no_validation_cex :
    constructionOk
      (TIPP.mk 100 1 [0, 0, 0, 0, 0] [0, 0, 0, 0] [0, 0, 0, 0, 0] 0 0 1 252) = true ∧
    ([(0 : ℝ), 0, 0, 0, 0].length ≠ [(0 : ℝ), 0, 0, 0].length) :=
  ⟨rfl, by simp⟩

/-- C3 (amended): `run` is not idempotent in `tipp_.pyx`, but only
because the scalar `_compounded_period` is not reset at the start of
`run` — the four output arrays themselves ARE freshly reallocated on
every call.  Concretely, a second `run` on the instance `instC3`
changes `floor[0]` from 25 to 50 because the discount array is
recomputed from the decremented `_compounded_period = 1`; the
memory-view variant recomputes `compounded_period` locally, never
mutates the instance scalar, and its `run` is idempotent for every
instance. -/
theorem run_idempotence_by_variant :
    TIPP.mk 100 1 [0, 0] [252, 252] [0, 0] 0 0 1 1 = .ok instC3 ∧
    (TIPP.run instC3).floorA 0 = 25 ∧
    (TIPP.run (TIPP.run instC3)).floorA 0 = 50 ∧
    (TIPP.run instC3).compounded_period = 1 ∧
    ∀ s : TIPPmv.Inst,
      (TIPPmv.run (TIPPmv.run s)).portfolio = (TIPPmv.run s).portfolio ∧
      (TIPPmv.run (TIPPmv.run s)).ref_capital = (TIPPmv.run s).ref_capital ∧
      (TIPPmv.run (TIPPmv.run s)).margin_trigger = (TIPPmv.run s).margin_trigger ∧
      (TIPPmv.run (TIPPmv.run s)).floor = (TIPPmv.run s).floor ∧
      (TIPPmv.run s).compounded_period = s.compounded_period := by
  have hcp1 : (TIPP.run instC3).compounded_period = 1 := by
    rw [TIPP.run_cp, TIPP.cpAfter_eq]
    norm_num [instC3]
  refine ⟨rfl, ?_, ?_, hcp1, fun s => ⟨rfl, rfl, rfl, rfl, rfl⟩⟩
  · rw [TIPP.run_floorA_zero]
    have hcp : instC3.compounded_period = ((2 : ℕ) : ℝ) := by norm_num [instC3]
    have hd : TIPP.discountArr instC3.cfg (fun j => instC3.rf.getD j 0)
        instC3.compounded_period 0 = 4 := by
      simp only [TIPP.discountArr]
      rw [hcp, Real.rpow_natCast]
      norm_num [instC3]
    rw [hd]
    norm_num [instC3]
  · rw [TIPP.run_floorA_zero]
    have hcfg : (TIPP.run instC3).cfg = instC3.cfg := rfl
    have hrf : (TIPP.run instC3).rf = instC3.rf := rfl
    rw [hcfg, hrf, hcp1]
    have hd : TIPP.discountArr instC3.cfg (fun j => instC3.rf.getD j 0)
        (1 : ℝ) 0 = 2 := by
      simp only [TIPP.discountArr]
      rw [Real.rpow_one]
      norm_num [instC3]
    rw [hd]
    norm_num [instC3]

/-- C3 counterexample: on the memory-view implementation (the `run`
cited by the claim), a second `run` on a concrete valid instance
produces exactly the same four output series as the first, and the
instance `compounded_period` is never touched: the output arrays and
the loop scalars are all freshly recomputed at the start of `run`, so
repeated calls are not incorrect there. -/
theorem run_idempotent_mv_cex :
    (TIPPmv.run (TIPPmv.run instC4mv)).portfolio = (TIPPmv.run instC4mv).portfolio ∧
    (TIPPmv.run (TIPPmv.run instC4mv)).ref_capital = (TIPPmv.run instC4mv).ref_capital ∧
    (TIPPmv.run (TIPPmv.run instC4mv)).margin_trigger = (TIPPmv.run instC4mv).margin_trigger ∧
    (TIPPmv.run (TIPPmv.run instC4mv)).floor = (TIPPmv.run instC4mv).floor ∧
    (TIPPmv.run instC4mv).compounded_period = instC4mv.compounded_period :=
  ⟨rfl, rfl, rfl, rfl, rfl⟩

/-- C4 (amended): `tipp_.pyx`'s `run` mutates `_compounded_period` in
place, leaving `n/freq - (n-1)/freq = 1/freq` on a freshly constructed
instance with `n ≥ 1` (for `n ≥ 2` this differs from the pre-run value
`n/freq`); the memory-view variant computes `compounded_period` in a
loop-local variable and leaves the instance scalar at its construction
value. -/
theorem compounded_period_mutation_by_variant (s : TIPP.Inst) (t : TIPPmv.Inst)
    (hcp : s.compounded_period = (s.rr.length : ℝ) / s.cfg.freq)
    (hn : 1 ≤ s.rr.length) :
    (TIPP.run s).compounded_period = 1 / s.cfg.freq ∧
    (TIPPmv.run t).compounded_period = t.compounded_period := by
  refine ⟨?_, rfl⟩
  rw [TIPP.run_cp, TIPP.cpAfter_eq, hcp, div_sub_div_same]
  have h1 : ((s.rr.length - 1 : ℕ) : ℝ) = (s.rr.length : ℝ) - 1 := by
    have h2 : ((s.rr.length - 1 : ℕ) : ℝ) = (s.rr.length : ℝ) - ((1 : ℕ) : ℝ) :=
      Nat.cast_sub hn
    simpa using h2
  rw [h1]
  congr 1
  ring

/-- Witness for C4's amended theorem on concrete fresh instances. -/
theorem compounded_period_mutation_witness :
    (instC4.compounded_period = (instC4.rr.length : ℝ) / instC4.cfg.freq ∧
     1 ≤ instC4.rr.length) ∧
    ((TIPP.run instC4).compounded_period = 1 / instC4.cfg.freq ∧
     (TIPPmv.run instC4mv).compounded_period = instC4mv.compounded_period) :=
  ⟨⟨rfl, by norm_num [instC4]⟩,
   compounded_period_mutation_by_variant instC4 instC4mv rfl (by norm_num [instC4])⟩

/-- C4 counterexample: on the memory-view variant with `n = 3`,
`freq = 1`, the `compounded_period` accessor still returns its
construction value `3` after `run`, not `1/freq = 1`. -/
theorem compounded_period_unchanged_mv_cex :
    TIPPmv.mk 100 1 [0, 0, 0] [0, 0, 0] [0, 0, 0] 0 0 1 1 = .ok instC4mv ∧
    (TIPPmv.run instC4mv).compounded_period = 3 ∧ ((3 : ℝ) ≠ 1 / 1) := by
  refine ⟨rfl, ?_, by norm_num⟩
  show instC4mv.compounded_period = 3
  norm_num [instC4mv]

/-- C5 (amended): in the memory-view variant the discount factor used
when computing `floor_cap` at iteration `i` (reading index `i-1`) is
`(1 + rf[i-1]*freq/252) ^ ((n-(i-1))/freq)`: the exponent is the current
`compounded_period`, which starts at `n/freq` and decreases by `1/freq`
per iteration, recomputed incrementally; `tipp_.pyx` instead precomputes
the whole discount array with the single frozen exponent
`_compounded_period`. -/
theorem discount_factor_incremental_mv (cfg : Config) (rr rf : ℕ → ℝ)
    (n i : ℕ) (h1 : 1 ≤ i) (h2 : i ≤ n - 1) :
    (TIPPmv.loop cfg rr rf n (i - 1)).2.2 =
      (1 + rf (i - 1) * cfg.freq / 252) ^
        (((n : ℝ) - ((i - 1 : ℕ) : ℝ)) / cfg.freq) := by
  rw [TIPPmv.loop_df]
  obtain ⟨m, rfl⟩ : ∃ m, i = m + 1 := ⟨i - 1, by omega⟩
  simp only [TIPPmv.mvD, Nat.add_sub_cancel]
  rw [sub_div]

/-- Witness for C5's amended theorem at `n = 3`, `i = 2`. -/
theorem discount_factor_incremental_mv_witness :
    ((1 : ℕ) ≤ 2 ∧ 2 ≤ 3 - 1) ∧
    (TIPPmv.loop ⟨100, 1, 0, 0, 1, 1⟩ (fun _ => 0) (fun _ => 0) 3 (2 - 1)).2.2 =
      (1 + (0 : ℝ) * 1 / 252) ^ ((((3 : ℕ) : ℝ) - (((2 - 1 : ℕ)) : ℝ)) / 1) :=
  ⟨⟨by norm_num, by norm_num⟩,
   discount_factor_incremental_mv ⟨100, 1, 0, 0, 1, 1⟩ (fun _ => 0) (fun _ => 0) 3 2
     (by norm_num) (by norm_num)⟩

/-- C5 counterexample: in `tipp_.pyx` with `n = 3`, `freq = 1` and
`rf ≡ 252` (so each discount base is 2), the discount factor used at
iteration `i = 2` (index 1) is the frozen `2^3 = 8`, not the
incrementally recomputed `2^((3-1)/1) = 4` the claim prescribes. -/
theorem discount_factor_frozen_cex :
    TIPP.discountArr ⟨100, 1, 0, 0, 1, 1⟩ (fun _ => 252) ((3 : ℝ) / 1) 1 = 8 ∧
    (1 + (252 : ℝ) * 1 / 252) ^ (((3 : ℝ) - 1) / 1) = 4 ∧
    ((8 : ℝ) ≠ 4) := by
  refine ⟨?_, ?_, by norm_num⟩
  · simp only [TIPP.discountArr]
    rw [show ((3 : ℝ) / 1) = ((3 : ℕ) : ℝ) by norm_num, Real.rpow_natCast]
    norm_num
  · rw [show (((3 : ℝ) - 1) / 1) = ((2 : ℕ) : ℝ) by norm_num, Real.rpow_natCast]
    norm_num

/-- C6: in both implementations, whenever `margin_trigger[i] > 0` after
`run`, the final (injection-corrected) `portfolio[i-1]` equals exactly
`ref_capital[i-1] * min_capital_req` and
`ref_capital[i] = ref_capital[i-1] - margin_trigger[i]` (overriding the
ratchet result of that iteration); conversely `margin_trigger[i] > 0`
exactly when the pre-injection `portfolio[i-1]` was below
`ref_capital[i-1] * min_capital_req`. -/
theorem margin_injection_correction (cfg : Config) (rr rf : ℕ → ℝ) (cp0 : ℝ)
    (n i : ℕ) (h1 : 1 ≤ i) (h2 : i ≤ n - 1) :
    ((0 < (TIPPmv.runArrays cfg rr rf n).margin_trigger i →
      (TIPPmv.runArrays cfg rr rf n).portfolio (i - 1) =
        (TIPPmv.runArrays cfg rr rf n).ref_capital (i - 1) * cfg.min_capital_req ∧
      (TIPPmv.runArrays cfg rr rf n).ref_capital i =
        (TIPPmv.runArrays cfg rr rf n).ref_capital (i - 1) -
          (TIPPmv.runArrays cfg rr rf n).margin_trigger i) ∧
     (0 < (TIPPmv.runArrays cfg rr rf n).margin_trigger i ↔
      (TIPPmv.loop cfg rr rf n (i - 1)).1.portfolio (i - 1) <
        (TIPPmv.loop cfg rr rf n (i - 1)).1.ref_capital (i - 1) * cfg.min_capital_req)) ∧
    ((0 < (TIPP.runArrays cfg rr rf cp0 n).margin_trigger i →
      (TIPP.runArrays cfg rr rf cp0 n).portfolio (i - 1) =
        (TIPP.runArrays cfg rr rf cp0 n).ref_capital (i - 1) * cfg.min_capital_req ∧
      (TIPP.runArrays cfg rr rf cp0 n).ref_capital i =
        (TIPP.runArrays cfg rr rf cp0 n).ref_capital (i - 1) -
          (TIPP.runArrays cfg rr rf cp0 n).margin_trigger i) ∧
     (0 < (TIPP.runArrays cfg rr rf cp0 n).margin_trigger i ↔
      (TIPP.runArrays cfg rr rf cp0 i).portfolio (i - 1) <
        (TIPP.runArrays cfg rr rf cp0 i).ref_capital (i - 1) * cfg.min_capital_req)) := by
  constructor
  · simp only [TIPPmv.runArrays, TIPPmv.loop_fst]
    exact loopA_injection_master cfg rr rf _ _ (fun j => rfl) h1 h2
  · simp only [TIPP.runArrays]
    exact loopA_injection_master cfg rr rf _ _ (fun j => rfl) h1 h2

/-- Witness for C6 at `n = 2`, `i = 1` and a concrete configuration. -/
theorem margin_injection_correction_witness :
    ((1 : ℕ) ≤ 1 ∧ 1 ≤ 2 - 1) ∧
    (((0 < (TIPPmv.runArrays ⟨100, 1, 0, 0, 1, 1⟩ (fun _ => 0) (fun _ => 0) 2).margin_trigger 1 →
      (TIPPmv.runArrays ⟨100, 1, 0, 0, 1, 1⟩ (fun _ => 0) (fun _ => 0) 2).portfolio (1 - 1) =
        (TIPPmv.runArrays ⟨100, 1, 0, 0, 1, 1⟩ (fun _ => 0) (fun _ => 0) 2).ref_capital (1 - 1) * 1 ∧
      (TIPPmv.runArrays ⟨100, 1, 0, 0, 1, 1⟩ (fun _ => 0) (fun _ => 0) 2).ref_capital 1 =
        (TIPPmv.runArrays ⟨100, 1, 0, 0, 1, 1⟩ (fun _ => 0) (fun _ => 0) 2).ref_capital (1 - 1) -
          (TIPPmv.runArrays ⟨100, 1, 0, 0, 1, 1⟩ (fun _ => 0) (fun _ => 0) 2).margin_trigger 1) ∧
     (0 < (TIPPmv.runArrays ⟨100, 1, 0, 0, 1, 1⟩ (fun _ => 0) (fun _ => 0) 2).margin_trigger 1 ↔
      (TIPPmv.loop ⟨100, 1, 0, 0, 1, 1⟩ (fun _ => 0) (fun _ => 0) 2 (1 - 1)).1.portfolio (1 - 1) <
        (TIPPmv.loop ⟨100, 1, 0, 0, 1, 1⟩ (fun _ => 0) (fun _ => 0) 2 (1 - 1)).1.ref_capital (1 - 1) * 1)) ∧
    ((0 < (TIPP.runArrays ⟨100, 1, 0, 0, 1, 1⟩ (fun _ => 0) (fun _ => 0) 2 2).margin_trigger 1 →
      (TIPP.runArrays ⟨100, 1, 0, 0, 1, 1⟩ (fun _ => 0) (fun _ => 0) 2 2).portfolio (1 - 1) =
        (TIPP.runArrays ⟨100, 1, 0, 0, 1, 1⟩ (fun _ => 0) (fun _ => 0) 2 2).ref_capital (1 - 1) * 1 ∧
      (TIPP.runArrays ⟨100, 1, 0, 0, 1, 1⟩ (fun _ => 0) (fun _ => 0) 2 2).ref_capital 1 =
        (TIPP.runArrays ⟨100, 1, 0, 0, 1, 1⟩ (fun _ => 0) (fun _ => 0) 2 2).ref_capital (1 - 1) -
          (TIPP.runArrays ⟨100, 1, 0, 0, 1, 1⟩ (fun _ => 0) (fun _ => 0) 2 2).margin_trigger 1) ∧
     (0 < (TIPP.runArrays ⟨100, 1, 0, 0, 1, 1⟩ (fun _ => 0) (fun _ => 0) 2 2).margin_trigger 1 ↔
      (TIPP.runArrays ⟨100, 1, 0, 0, 1, 1⟩ (fun _ => 0) (fun _ => 0) 2 1).portfolio (1 - 1) <
        (TIPP.runArrays ⟨100, 1, 0, 0, 1, 1⟩ (fun _ => 0) (fun _ => 0) 2 1).ref_capital (1 - 1) * 1))) :=
  ⟨⟨by norm_num, by norm_num⟩,
   margin_injection_correction ⟨100, 1, 0, 0, 1, 1⟩ (fun _ => 0) (fun _ => 0) 2 2 1
     (by norm_num) (by norm_num)⟩

/-- C8: after `run`, in both implementations the floor series is
monotonically non-decreasing over the computed range:
`floor[i-1] ≤ floor[i]` for `1 ≤ i ≤ n-1`. -/
theorem floor_monotone_after_run (cfg : Config) (rr rf : ℕ → ℝ) (cp0 : ℝ)
    (n i : ℕ) (h1 : 1 ≤ i) (h2 : i ≤ n - 1) :
    (TIPPmv.runArrays cfg rr rf n).floor (i - 1) ≤
      (TIPPmv.runArrays cfg rr rf n).floor i ∧
    (TIPP.runArrays cfg rr rf cp0 n).floor (i - 1) ≤
      (TIPP.runArrays cfg rr rf cp0 n).floor i := by
  constructor
  · rw [TIPPmv.runArrays, TIPPmv.loop_fst]
    exact loopA_floor_mono cfg rr rf _ _ h1 h2
  · simp only [TIPP.runArrays]
    exact loopA_floor_mono cfg rr rf _ _ h1 h2

/-- Witness for C8 at `n = 2`, `i = 1`. -/
theorem floor_monotone_after_run_witness :
    ((1 : ℕ) ≤ 1 ∧ 1 ≤ 2 - 1) ∧
    ((TIPPmv.runArrays ⟨100, 1, 0, 0, 1, 1⟩ (fun _ => 0) (fun _ => 0) 2).floor (1 - 1) ≤
      (TIPPmv.runArrays ⟨100, 1, 0, 0, 1, 1⟩ (fun _ => 0) (fun _ => 0) 2).floor 1 ∧
     (TIPP.runArrays ⟨100, 1, 0, 0, 1, 1⟩ (fun _ => 0) (fun _ => 0) 2 2).floor (1 - 1) ≤
      (TIPP.runArrays ⟨100, 1, 0, 0, 1, 1⟩ (fun _ => 0) (fun _ => 0) 2 2).floor 1) :=
  ⟨⟨by norm_num, by norm_num⟩,
   floor_monotone_after_run ⟨100, 1, 0, 0, 1, 1⟩ (fun _ => 0) (fun _ => 0) 2 2 1
     (by norm_num) (by norm_num)⟩

/-- C10: under `capital > 0` and `min_capital_req ∈ [0,1]`, in both
implementations the loop never mutates index 0 of any series:
`portfolio[0]`, `ref_capital[0]` and `floor[0]` keep their pre-loop
initialisation values, `margin_trigger[0] = 0`, and the in-place
liquidity-injection write to `portfolio[i-1]` at iteration `i = 1`
never fires (its guard `capital < capital * min_capital_req` is
false). -/
theorem index_zero_preserved (cfg : Config) (rr rf : ℕ → ℝ) (cp0 : ℝ) (n : ℕ)
    (hc : 0 < cfg.capital) (hm0 : 0 ≤ cfg.min_capital_req)
    (hm1 : cfg.min_capital_req ≤ 1) :
    ((TIPPmv.runArrays cfg rr rf n).portfolio 0 = cfg.capital ∧
     (TIPPmv.runArrays cfg rr rf n).ref_capital 0 = cfg.capital ∧
     (TIPPmv.runArrays cfg rr rf n).floor 0 = cfg.capital * cfg.min_capital_req ∧
     (TIPPmv.runArrays cfg rr rf n).margin_trigger 0 = 0) ∧
    ((TIPP.runArrays cfg rr rf cp0 n).portfolio 0 = cfg.capital ∧
     (TIPP.runArrays cfg rr rf cp0 n).ref_capital 0 = cfg.capital ∧
     (TIPP.runArrays cfg rr rf cp0 n).floor 0 =
       cfg.capital * cfg.min_capital_req / TIPP.discountArr cfg rf cp0 0 ∧
     (TIPP.runArrays cfg rr rf cp0 n).margin_trigger 0 = 0) ∧
    ¬ ((TIPPmv.initArrays cfg).portfolio 0 <
        (TIPPmv.initArrays cfg).ref_capital 0 * cfg.min_capital_req) := by
  have hfire : ¬ (cfg.capital < cfg.capital * cfg.min_capital_req) :=
    not_lt.mpr (mul_le_of_le_one_right hc.le hm1)
  refine ⟨⟨?_, ?_, ?_, ?_⟩, ⟨?_, ?_, ?_, ?_⟩, hfire⟩
  · rw [TIPPmv.runArrays, TIPPmv.loop_fst, loopA_portfolio_zero cfg rr rf _ _ hfire]
    rfl
  · rw [TIPPmv.runArrays, TIPPmv.loop_fst, loopA_ref_capital_zero]
    rfl
  · rw [TIPPmv.runArrays, TIPPmv.loop_fst, loopA_floor_zero]
    rfl
  · rw [TIPPmv.runArrays, TIPPmv.loop_fst, loopA_margin_zero]
    rfl
  · rw [TIPP.runArrays, loopA_portfolio_zero cfg rr rf _ _ hfire]
    rfl
  · rw [TIPP.runArrays, loopA_ref_capital_zero]
    rfl
  · rw [TIPP.runArrays, loopA_floor_zero]
    rfl
  · rw [TIPP.runArrays, loopA_margin_zero]
    rfl

/-- Witness for C10 at a concrete configuration. -/
theorem index_zero_preserved_witness :
    ((0 : ℝ) < 100 ∧ (0 : ℝ) ≤ 1 ∧ (1 : ℝ) ≤ 1) ∧
    (((TIPPmv.runArrays ⟨100, 1, 0, 0, 1, 1⟩ (fun _ => 0) (fun _ => 0) 2).portfolio 0 = 100 ∧
      (TIPPmv.runArrays ⟨100, 1, 0, 0, 1, 1⟩ (fun _ => 0) (fun _ => 0) 2).ref_capital 0 = 100 ∧
      (TIPPmv.runArrays ⟨100, 1, 0, 0, 1, 1⟩ (fun _ => 0) (fun _ => 0) 2).floor 0 = (100 : ℝ) * 1 ∧
      (TIPPmv.runArrays ⟨100, 1, 0, 0, 1, 1⟩ (fun _ => 0) (fun _ => 0) 2).margin_trigger 0 = 0) ∧
     ((TIPP.runArrays ⟨100, 1, 0, 0, 1, 1⟩ (fun _ => 0) (fun _ => 0) 2 2).portfolio 0 = 100 ∧
      (TIPP.runArrays ⟨100, 1, 0, 0, 1, 1⟩ (fun _ => 0) (fun _ => 0) 2 2).ref_capital 0 = 100 ∧
      (TIPP.runArrays ⟨100, 1, 0, 0, 1, 1⟩ (fun _ => 0) (fun _ => 0) 2 2).floor 0 =
        (100 : ℝ) * 1 / TIPP.discountArr ⟨100, 1, 0, 0, 1, 1⟩ (fun _ => 0) 2 0 ∧
      (TIPP.runArrays ⟨100, 1, 0, 0, 1, 1⟩ (fun _ => 0) (fun _ => 0) 2 2).margin_trigger 0 = 0) ∧
     ¬ ((TIPPmv.initArrays ⟨100, 1, 0, 0, 1, 1⟩).portfolio 0 <
         (TIPPmv.initArrays ⟨100, 1, 0, 0, 1, 1⟩).ref_capital 0 * 1)) :=
  ⟨⟨by norm_num, by norm_num, by norm_num⟩,
   index_zero_preserved ⟨100, 1, 0, 0, 1, 1⟩ (fun _ => 0) (fun _ => 0) 2 2
     (by norm_num) (by norm_num) (by norm_num)⟩

/-- C9: the benchmark series `br` is stored but never read by `run`:
replacing `br` (same length) on a `tipp_.pyx` instance, or constructing
two memory-view instances that differ only in `br`, yields identical
`portfolio`, `ref_capital`, `margin_trigger`, `floor` series and an
identical `compounded_period` after `run`. -/
theorem benchmark_noninterference (s : TIPP.Inst) (br2 : List ℝ)
    (c m li mrr mcr fr : ℝ) (rr rf brA brB : List ℝ) (t1 t2 : TIPPmv.Inst)
    (hlen : br2.length = s.br.length)
    (hA : TIPPmv.mk c m rr rf brA li mrr mcr fr = .ok t1)
    (hB : TIPPmv.mk c m rr rf brB li mrr mcr fr = .ok t2) :
    ((TIPP.run { s with br := br2 }).portfolio = (TIPP.run s).portfolio ∧
     (TIPP.run { s with br := br2 }).ref_capital = (TIPP.run s).ref_capital ∧
     (TIPP.run { s with br := br2 }).margin_trigger = (TIPP.run s).margin_trigger ∧
     (TIPP.run { s with br := br2 }).floor = (TIPP.run s).floor ∧
     (TIPP.run { s with br := br2 }).compounded_period =
       (TIPP.run s).compounded_period) ∧
    ((TIPPmv.run t1).portfolio = (TIPPmv.run t2).portfolio ∧
     (TIPPmv.run t1).ref_capital = (TIPPmv.run t2).ref_capital ∧
     (TIPPmv.run t1).margin_trigger = (TIPPmv.run t2).margin_trigger ∧
     (TIPPmv.run t1).floor = (TIPPmv.run t2).floor ∧
     (TIPPmv.run t1).compounded_period = (TIPPmv.run t2).compounded_period) := by
  constructor
  · exact ⟨rfl, rfl, rfl, rfl, rfl⟩
  · rw [TIPPmv.mk] at hA hB
    split_ifs at hA hB
    injection hA with hA2
    injection hB with hB2
    subst hA2
    subst hB2
    exact ⟨rfl, rfl, rfl, rfl, rfl⟩

/-- Witness for C9 on concrete instances with benchmarks `[1]` and `[2]`. -/
theorem benchmark_noninterference_witness :
    (([(2 : ℝ)] : List ℝ).length = sampleTIPP.br.length ∧
     TIPPmv.mk 100 1 [0] [0] [1] 0 0 1 252 = .ok sampleMv1 ∧
     TIPPmv.mk 100 1 [0] [0] [2] 0 0 1 252 = .ok sampleMv2) ∧
    (((TIPP.run { sampleTIPP with br := [(2 : ℝ)] }).portfolio =
        (TIPP.run sampleTIPP).portfolio ∧
      (TIPP.run { sampleTIPP with br := [(2 : ℝ)] }).ref_capital =
        (TIPP.run sampleTIPP).ref_capital ∧
      (TIPP.run { sampleTIPP with br := [(2 : ℝ)] }).margin_trigger =
        (TIPP.run sampleTIPP).margin_trigger ∧
      (TIPP.run { sampleTIPP with br := [(2 : ℝ)] }).floor =
        (TIPP.run sampleTIPP).floor ∧
      (TIPP.run { sampleTIPP with br := [(2 : ℝ)] }).compounded_period =
        (TIPP.run sampleTIPP).compounded_period) ∧
     ((TIPPmv.run sampleMv1).portfolio = (TIPPmv.run sampleMv2).portfolio ∧
      (TIPPmv.run sampleMv1).ref_capital = (TIPPmv.run sampleMv2).ref_capital ∧
      (TIPPmv.run sampleMv1).margin_trigger = (TIPPmv.run sampleMv2).margin_trigger ∧
      (TIPPmv.run sampleMv1).floor = (TIPPmv.run sampleMv2).floor ∧
      (TIPPmv.run sampleMv1).compounded_period =
        (TIPPmv.run sampleMv2).compounded_period)) :=
  ⟨⟨rfl, rfl, rfl⟩,
   benchmark_noninterference sampleTIPP [(2 : ℝ)] 100 1 0 0 1 252 [0] [0] [1] [2]
     sampleMv1 sampleMv2 rfl rfl rfl⟩

/-- C7 (amended): at every iteration `i` of `run`, in both
implementations, writing `P` for the (possibly injection-corrected)
previous-period portfolio value and `F` for the floor read by the
magnet, the computed
`risk_allocation = max(min(multiplier*(P-F), P), min_risk_req*P)`
(clamp order: `min` against `P` first, then `max` against the
minimum-risk share) satisfies the claimed lower bound
`min_risk_req * P ≤ risk_allocation` unconditionally, and the upper
bound `risk_allocation ≤ P` whenever `0 ≤ P` and `min_risk_req ≤ 1`;
the third conjunct of each half certifies that this is exactly the
quantity the loop feeds into the portfolio update. -/
theorem risk_allocation_bounds_amended (cfg : Config) (rr rf : ℕ → ℝ)
    (cp0 : ℝ) (n i : ℕ) (h1 : 1 ≤ i) (h2 : i ≤ n - 1) :
    (cfg.min_risk_req * (TIPPmv.loop cfg rr rf n i).1.portfolio (i - 1) ≤
      risk_allocation_mix cfg
        ((TIPPmv.loop cfg rr rf n i).1.portfolio (i - 1) -
          (TIPPmv.loop cfg rr rf n (i - 1)).1.floor (i - 1))
        ((TIPPmv.loop cfg rr rf n i).1.portfolio (i - 1)) ∧
     (0 ≤ (TIPPmv.loop cfg rr rf n i).1.portfolio (i - 1) →
      cfg.min_risk_req ≤ 1 →
      risk_allocation_mix cfg
        ((TIPPmv.loop cfg rr rf n i).1.portfolio (i - 1) -
          (TIPPmv.loop cfg rr rf n (i - 1)).1.floor (i - 1))
        ((TIPPmv.loop cfg rr rf n i).1.portfolio (i - 1)) ≤
      (TIPPmv.loop cfg rr rf n i).1.portfolio (i - 1)) ∧
     (TIPPmv.loop cfg rr rf n i).1.portfolio i =
      risk_allocation_mix cfg
          ((TIPPmv.loop cfg rr rf n i).1.portfolio (i - 1) -
            (TIPPmv.loop cfg rr rf n (i - 1)).1.floor (i - 1))
          ((TIPPmv.loop cfg rr rf n i).1.portfolio (i - 1)) * (1 + rr i) +
        ((TIPPmv.loop cfg rr rf n i).1.portfolio (i - 1) -
          risk_allocation_mix cfg
            ((TIPPmv.loop cfg rr rf n i).1.portfolio (i - 1) -
              (TIPPmv.loop cfg rr rf n (i - 1)).1.floor (i - 1))
            ((TIPPmv.loop cfg rr rf n i).1.portfolio (i - 1))) * (1 + rf i)) ∧
    (cfg.min_risk_req * (TIPP.runArrays cfg rr rf cp0 (i + 1)).portfolio (i - 1) ≤
      risk_allocation_mix cfg
        ((TIPP.runArrays cfg rr rf cp0 (i + 1)).portfolio (i - 1) -
          (TIPP.runArrays cfg rr rf cp0 i).floor (i - 1))
        ((TIPP.runArrays cfg rr rf cp0 (i + 1)).portfolio (i - 1)) ∧
     (0 ≤ (TIPP.runArrays cfg rr rf cp0 (i + 1)).portfolio (i - 1) →
      cfg.min_risk_req ≤ 1 →
      risk_allocation_mix cfg
        ((TIPP.runArrays cfg rr rf cp0 (i + 1)).portfolio (i - 1) -
          (TIPP.runArrays cfg rr rf cp0 i).floor (i - 1))
        ((TIPP.runArrays cfg rr rf cp0 (i + 1)).portfolio (i - 1)) ≤
      (TIPP.runArrays cfg rr rf cp0 (i + 1)).portfolio (i - 1)) ∧
     (TIPP.runArrays cfg rr rf cp0 (i + 1)).portfolio i =
      risk_allocation_mix cfg
          ((TIPP.runArrays cfg rr rf cp0 (i + 1)).portfolio (i - 1) -
            (TIPP.runArrays cfg rr rf cp0 i).floor (i - 1))
          ((TIPP.runArrays cfg rr rf cp0 (i + 1)).portfolio (i - 1)) * (1 + rr i) +
        ((TIPP.runArrays cfg rr rf cp0 (i + 1)).portfolio (i - 1) -
          risk_allocation_mix cfg
            ((TIPP.runArrays cfg rr rf cp0 (i + 1)).portfolio (i - 1) -
              (TIPP.runArrays cfg rr rf cp0 i).floor (i - 1))
            ((TIPP.runArrays cfg rr rf cp0 (i + 1)).portfolio (i - 1))) * (1 + rf i)) := by
  refine ⟨⟨le_max_right _ _,
           fun hp hm => max_le (min_le_right _ _) (mul_le_of_le_one_left hp hm), ?_⟩,
          ⟨le_max_right _ _,
           fun hp hm => max_le (min_le_right _ _) (mul_le_of_le_one_left hp hm), ?_⟩⟩
  · obtain ⟨m, rfl⟩ : ∃ m, i = m + 1 := ⟨i - 1, by omega⟩
    simp only [TIPPmv.loop_fst, loopA, Nat.add_sub_cancel]
    exact stepCore_portfolio_self cfg rr rf _ _ _ (by omega)
  · obtain ⟨m, rfl⟩ : ∃ m, i = m + 1 := ⟨i - 1, by omega⟩
    simp only [TIPP.runArrays, Nat.add_sub_cancel, loopA]
    exact stepCore_portfolio_self cfg rr rf _ _ _ (by omega)

/-- Witness for C7's amended theorem at `n = 2`, `i = 1`, `cp0 = 2`. -/
theorem risk_allocation_bounds_amended_witness :
    ((1 : ℕ) ≤ 1 ∧ 1 ≤ 2 - 1) ∧
    (((1 : ℝ) / 2 * (TIPPmv.loop ⟨100, 1, 0, 1/2, 1/2, 1⟩ (fun _ => 0) (fun _ => 0) 2 1).1.portfolio (1 - 1) ≤
      risk_allocation_mix ⟨100, 1, 0, 1/2, 1/2, 1⟩
        ((TIPPmv.loop ⟨100, 1, 0, 1/2, 1/2, 1⟩ (fun _ => 0) (fun _ => 0) 2 1).1.portfolio (1 - 1) -
          (TIPPmv.loop ⟨100, 1, 0, 1/2, 1/2, 1⟩ (fun _ => 0) (fun _ => 0) 2 (1 - 1)).1.floor (1 - 1))
        ((TIPPmv.loop ⟨100, 1, 0, 1/2, 1/2, 1⟩ (fun _ => 0) (fun _ => 0) 2 1).1.portfolio (1 - 1)) ∧
     (0 ≤ (TIPPmv.loop ⟨100, 1, 0, 1/2, 1/2, 1⟩ (fun _ => 0) (fun _ => 0) 2 1).1.portfolio (1 - 1) →
      (1 : ℝ) / 2 ≤ 1 →
      risk_allocation_mix ⟨100, 1, 0, 1/2, 1/2, 1⟩
        ((TIPPmv.loop ⟨100, 1, 0, 1/2, 1/2, 1⟩ (fun _ => 0) (fun _ => 0) 2 1).1.portfolio (1 - 1) -
          (TIPPmv.loop ⟨100, 1, 0, 1/2, 1/2, 1⟩ (fun _ => 0) (fun _ => 0) 2 (1 - 1)).1.floor (1 - 1))
        ((TIPPmv.loop ⟨100, 1, 0, 1/2, 1/2, 1⟩ (fun _ => 0) (fun _ => 0) 2 1).1.portfolio (1 - 1)) ≤
      (TIPPmv.loop ⟨100, 1, 0, 1/2, 1/2, 1⟩ (fun _ => 0) (fun _ => 0) 2 1).1.portfolio (1 - 1)) ∧
     (TIPPmv.loop ⟨100, 1, 0, 1/2, 1/2, 1⟩ (fun _ => 0) (fun _ => 0) 2 1).1.portfolio 1 =
      risk_allocation_mix ⟨100, 1, 0, 1/2, 1/2, 1⟩
          ((TIPPmv.loop ⟨100, 1, 0, 1/2, 1/2, 1⟩ (fun _ => 0) (fun _ => 0) 2 1).1.portfolio (1 - 1) -
            (TIPPmv.loop ⟨100, 1, 0, 1/2, 1/2, 1⟩ (fun _ => 0) (fun _ => 0) 2 (1 - 1)).1.floor (1 - 1))
          ((TIPPmv.loop ⟨100, 1, 0, 1/2, 1/2, 1⟩ (fun _ => 0) (fun _ => 0) 2 1).1.portfolio (1 - 1)) * (1 + 0) +
        ((TIPPmv.loop ⟨100, 1, 0, 1/2, 1/2, 1⟩ (fun _ => 0) (fun _ => 0) 2 1).1.portfolio (1 - 1) -
          risk_allocation_mix ⟨100, 1, 0, 1/2, 1/2, 1⟩
            ((TIPPmv.loop ⟨100, 1, 0, 1/2, 1/2, 1⟩ (fun _ => 0) (fun _ => 0) 2 1).1.portfolio (1 - 1) -
              (TIPPmv.loop ⟨100, 1, 0, 1/2, 1/2, 1⟩ (fun _ => 0) (fun _ => 0) 2 (1 - 1)).1.floor (1 - 1))
            ((TIPPmv.loop ⟨100, 1, 0, 1/2, 1/2, 1⟩ (fun _ => 0) (fun _ => 0) 2 1).1.portfolio (1 - 1))) * (1 + 0)) ∧
    ((1 : ℝ) / 2 * (TIPP.runArrays ⟨100, 1, 0, 1/2, 1/2, 1⟩ (fun _ => 0) (fun _ => 0) 2 (1 + 1)).portfolio (1 - 1) ≤
      risk_allocation_mix ⟨100, 1, 0, 1/2, 1/2, 1⟩
        ((TIPP.runArrays ⟨100, 1, 0, 1/2, 1/2, 1⟩ (fun _ => 0) (fun _ => 0) 2 (1 + 1)).portfolio (1 - 1) -
          (TIPP.runArrays ⟨100, 1, 0, 1/2, 1/2, 1⟩ (fun _ => 0) (fun _ => 0) 2 1).floor (1 - 1))
        ((TIPP.runArrays ⟨100, 1, 0, 1/2, 1/2, 1⟩ (fun _ => 0) (fun _ => 0) 2 (1 + 1)).portfolio (1 - 1)) ∧
     (0 ≤ (TIPP.runArrays ⟨100, 1, 0, 1/2, 1/2, 1⟩ (fun _ => 0) (fun _ => 0) 2 (1 + 1)).portfolio (1 - 1) →
      (1 : ℝ) / 2 ≤ 1 →
      risk_allocation_mix ⟨100, 1, 0, 1/2, 1/2, 1⟩
        ((TIPP.runArrays ⟨100, 1, 0, 1/2, 1/2, 1⟩ (fun _ => 0) (fun _ => 0) 2 (1 + 1)).portfolio (1 - 1) -
          (TIPP.runArrays ⟨100, 1, 0, 1/2, 1/2, 1⟩ (fun _ => 0) (fun _ => 0) 2 1).floor (1 - 1))
        ((TIPP.runArrays ⟨100, 1, 0, 1/2, 1/2, 1⟩ (fun _ => 0) (fun _ => 0) 2 (1 + 1)).portfolio (1 - 1)) ≤
      (TIPP.runArrays ⟨100, 1, 0, 1/2, 1/2, 1⟩ (fun _ => 0) (fun _ => 0) 2 (1 + 1)).portfolio (1 - 1)) ∧
     (TIPP.runArrays ⟨100, 1, 0, 1/2, 1/2, 1⟩ (fun _ => 0) (fun _ => 0) 2 (1 + 1)).portfolio 1 =
      risk_allocation_mix ⟨100, 1, 0, 1/2, 1/2, 1⟩
          ((TIPP.runArrays ⟨100, 1, 0, 1/2, 1/2, 1⟩ (fun _ => 0) (fun _ => 0) 2 (1 + 1)).portfolio (1 - 1) -
            (TIPP.runArrays ⟨100, 1, 0, 1/2, 1/2, 1⟩ (fun _ => 0) (fun _ => 0) 2 1).floor (1 - 1))
          ((TIPP.runArrays ⟨100, 1, 0, 1/2, 1/2, 1⟩ (fun _ => 0) (fun _ => 0) 2 (1 + 1)).portfolio (1 - 1)) * (1 + 0) +
        ((TIPP.runArrays ⟨100, 1, 0, 1/2, 1/2, 1⟩ (fun _ => 0) (fun _ => 0) 2 (1 + 1)).portfolio (1 - 1) -
          risk_allocation_mix ⟨100, 1, 0, 1/2, 1/2, 1⟩
            ((TIPP.runArrays ⟨100, 1, 0, 1/2, 1/2, 1⟩ (fun _ => 0) (fun _ => 0) 2 (1 + 1)).portfolio (1 - 1) -
              (TIPP.runArrays ⟨100, 1, 0, 1/2, 1/2, 1⟩ (fun _ => 0) (fun _ => 0) 2 1).floor (1 - 1))
            ((TIPP.runArrays ⟨100, 1, 0, 1/2, 1/2, 1⟩ (fun _ => 0) (fun _ => 0) 2 (1 + 1)).portfolio (1 - 1))) * (1 + 0))) :=
  ⟨⟨by norm_num, by norm_num⟩,
   risk_allocation_bounds_amended ⟨100, 1, 0, 1/2, 1/2, 1⟩ (fun _ => 0) (fun _ => 0)
     2 2 1 (by norm_num) (by norm_num)⟩

/-- C7 counterexample: in the forced-loss scenario (`cfgC7`, `rrC7`,
`rfC7`, `n = 4`) iteration `i = 3` reads the injection-corrected
previous portfolio value `portfolio[2] = -10` and the floor
`floor[2] = 100`, and computes
`risk_allocation = max(min(2*(-110), -10), (1/5)*(-10)) = -2`, which
violates the claimed upper bound `risk_allocation ≤ portfolio[i-1]`
since `-2 > -10`. -/
theorem risk_allocation_upper_bound_cex :
    (TIPPmv.loop cfgC7 rrC7 rfC7 4 3).1.portfolio 2 = -10 ∧
    (TIPPmv.loop cfgC7 rrC7 rfC7 4 2).1.floor 2 = 100 ∧
    risk_allocation_mix cfgC7
        ((TIPPmv.loop cfgC7 rrC7 rfC7 4 3).1.portfolio 2 -
          (TIPPmv.loop cfgC7 rrC7 rfC7 4 2).1.floor 2)
        ((TIPPmv.loop cfgC7 rrC7 rfC7 4 3).1.portfolio 2) = -2 ∧
    ¬ (risk_allocation_mix cfgC7
        ((TIPPmv.loop cfgC7 rrC7 rfC7 4 3).1.portfolio 2 -
          (TIPPmv.loop cfgC7 rrC7 rfC7 4 2).1.floor 2)
        ((TIPPmv.loop cfgC7 rrC7 rfC7 4 3).1.portfolio 2) ≤
       (TIPPmv.loop cfgC7 rrC7 rfC7 4 3).1.portfolio 2) := by
  have hD : ∀ i, TIPPmv.mvD cfgC7 rfC7 4 i = 1 := by
    intro i
    simp only [TIPPmv.mvD, rfC7, cfgC7]
    norm_num [Real.one_rpow]
  have hstep : ∀ k, (TIPPmv.loop cfgC7 rrC7 rfC7 4 (k + 1)).1 =
      stepCore cfgC7 rrC7 rfC7 1 (k + 1) (TIPPmv.loop cfgC7 rrC7 rfC7 4 k).1 := by
    intro k
    rw [TIPPmv.loop]
    simp only
    rw [TIPPmv.loop_df, hD]
  have h0 : (TIPPmv.loop cfgC7 rrC7 rfC7 4 0).1 = TIPPmv.initArrays cfgC7 := rfl
  have e1p : (TIPPmv.loop cfgC7 rrC7 rfC7 4 1).1.portfolio 1 = -100 := by
    rw [hstep 0]
    rw [stepCore_portfolio_self cfgC7 rrC7 rfC7 1 1 _ (by norm_num)]
    rw [stepCore_portfolio_prev cfgC7 rrC7 rfC7 1 1 _ (by norm_num)]
    rw [h0]
    norm_num [TIPPmv.initArrays, cfgC7, rrC7, rfC7, risk_allocation_mix,
      max_def, min_def]
  have e1rc : (TIPPmv.loop cfgC7 rrC7 rfC7 4 1).1.ref_capital 1 = 100 := by
    rw [hstep 0]
    rw [stepCore_ref_capital_self]
    rw [h0]
    norm_num [TIPPmv.initArrays, cfgC7]
  have e1fl : (TIPPmv.loop cfgC7 rrC7 rfC7 4 1).1.floor 1 = 100 := by
    rw [hstep 0]
    rw [stepCore_floor_self]
    rw [h0]
    norm_num [TIPPmv.initArrays, cfgC7]
  have e2p : (TIPPmv.loop cfgC7 rrC7 rfC7 4 2).1.portfolio 2 = -10 := by
    rw [hstep 1]
    rw [stepCore_portfolio_self cfgC7 rrC7 rfC7 1 2 _ (by norm_num)]
    rw [stepCore_portfolio_prev cfgC7 rrC7 rfC7 1 2 _ (by norm_num)]
    simp only [show (2 : ℕ) - 1 = 1 from rfl]
    rw [e1p, e1rc, e1fl]
    norm_num [cfgC7, rrC7, rfC7, risk_allocation_mix, max_def, min_def]
  have e2rc : (TIPPmv.loop cfgC7 rrC7 rfC7 4 2).1.ref_capital 2 = -50 := by
    rw [hstep 1]
    rw [stepCore_ref_capital_self]
    simp only [show (2 : ℕ) - 1 = 1 from rfl]
    rw [e1p, e1rc]
    norm_num [cfgC7]
  have e2fl : (TIPPmv.loop cfgC7 rrC7 rfC7 4 2).1.floor 2 = 100 := by
    rw [hstep 1]
    rw [stepCore_floor_self]
    simp only [show (2 : ℕ) - 1 = 1 from rfl]
    rw [e1p, e1fl]
    norm_num
  have e3p : (TIPPmv.loop cfgC7 rrC7 rfC7 4 3).1.portfolio 2 = -10 := by
    rw [hstep 2]
    have hprev := stepCore_portfolio_prev cfgC7 rrC7 rfC7 1 3
      (TIPPmv.loop cfgC7 rrC7 rfC7 4 2).1 (by norm_num)
    simp only [show (3 : ℕ) - 1 = 2 from rfl] at hprev
    rw [hprev, e2p, e2rc]
    norm_num [cfgC7]
  refine ⟨e3p, e2fl, ?_, ?_⟩
  · rw [e3p, e2fl]
    norm_num [risk_allocation_mix, cfgC7, max_def, min_def]
  · rw [e3p, e2fl]
    norm_num [risk_allocation_mix, cfgC7, max_def, min_def]
